import Mathlib

/-!
Verification of `check_mem.cpp`, a memory-monitoring probe that reads a
snapshot of system memory counters, evaluates four categories
(free, shared, buffer, used) against percentage thresholds, and prints a
severity line with performance data.

Doubles are modelled as rationals (the source performs a handful of exact
multiplications/divisions on small values before truncating casts).
Unsigned 64-bit values are modelled as `Nat`, with the one wrapping
subtraction (`totalram - freeram - sharedram - bufferram`) made explicit
modulo `2 ^ 64`.
-/

set_option maxRecDepth 4000

namespace CheckMem

/-- `enum class status : int { OK = 0, WARNING = 1, CRITICAL = 2, UNKNOWN = 3 }`. -/
inductive Status
  | OK
  | WARNING
  | CRITICAL
  | UNKNOWN
deriving DecidableEq

/-- The underlying `int` of a `status`, used by the source's `cs > s`
comparison and by `static_cast< int >( s )` for the exit code. -/
def Status.toNat : Status → Nat
  | Status.OK => 0
  | Status.WARNING => 1
  | Status.CRITICAL => 2
  | Status.UNKNOWN => 3

/-- `status_name` from the source. -/
def status_name : Status → String
  | Status.OK => "OK"
  | Status.WARNING => "WARNING"
  | Status.CRITICAL => "CRITICAL"
  | Status.UNKNOWN => "UNKNOWN"

/-- `enum class valueType : char { VALUE, MAX, WARNING, CRITICAL }`. -/
inductive ValueType
  | VALUE
  | MAX
  | WARNING
  | CRITICAL
deriving DecidableEq

/-- `enum class unitType : char { RAW, HUMAN, PERCENTAGE }`. -/
inductive UnitType
  | RAW
  | HUMAN
  | PERCENTAGE
deriving DecidableEq

/-- `const std::array<std::string, 7> units`. -/
def units : List String := ["B", "kB", "MB", "GB", "TB", "PB", "EB"]

/-- Models `static_cast< unsigned long >` applied to a double.  The C++ cast
truncates toward zero, and on nonnegative rationals truncation toward zero
coincides with `Int.floor`.  The model is faithful only for operands in
`[0, 2 ^ 64)`: outside that range the C++ conversion is undefined behaviour,
so any theorem relying on a cast must keep (and, where it is not evident,
prove) its operand within range. -/
def castULong (q : ℚ) : Nat := (⌊q⌋).toNat

/-- The `Value` class: a measured quantity with its maximum and the two
percentage thresholds.  In the source `max` is initialised to `-1`
(i.e. `2 ^ 64 - 1` as `unsigned long`) and both thresholds to `-1.0`. -/
structure Value where
  value : Nat
  max : Nat
  warningPercentage : ℚ
  criticalPercentage : ℚ
deriving DecidableEq

/-- The constructor `Value( unsigned long value )` with the in-class field
initialisers `max = -1`, `warningPercentage = -1`, `criticalPercentage = -1`. -/
def Value.ofRaw (v : Nat) : Value := ⟨v, 2 ^ 64 - 1, -1, -1⟩

/-- `Value::setMaximum`. -/
def Value.setMaximum (v : Value) (m : Nat) : Value :=
  ⟨v.value, m, v.warningPercentage, v.criticalPercentage⟩

/-- `Value::setLimits`. -/
def Value.setLimits (v : Value) (w c : ℚ) : Value :=
  ⟨v.value, v.max, w, c⟩

/-- `Value::getRaw< T >`. -/
def Value.getRaw (v : Value) (T : ValueType) : ℚ :=
  match T with
  | ValueType.VALUE => v.value
  | ValueType.MAX => v.max
  | ValueType.WARNING => v.warningPercentage / 100 * v.max
  | ValueType.CRITICAL => v.criticalPercentage / 100 * v.max

/-- `Value::get< T, U >( bytesPerUnit )`:
`RAW` returns the raw double, `PERCENTAGE` computes
`static_cast< unsigned long >( 10000.0 * v / max ) / 100.` and `HUMAN`
computes `static_cast< unsigned long >( 1000.0 * v / bytesPerUnit ) / 1000.`. -/
def Value.get (v : Value) (T : ValueType) (U : UnitType) (bytesPerUnit : Nat) : ℚ :=
  match U with
  | UnitType.RAW => v.getRaw T
  | UnitType.PERCENTAGE => (castULong (10000 * v.getRaw T / v.max) : ℚ) / 100
  | UnitType.HUMAN => (castULong (1000 * v.getRaw T / bytesPerUnit) : ℚ) / 1000

/-- `Value::check< LESS >( double &exceededValue )`.  The caller initialises
`exceededValue` to `0`; the method writes the exceeded threshold into it on a
WARNING/CRITICAL result, so the pair returned here is exactly what the caller
observes. -/
def Value.check (v : Value) (LESS : Bool) : Status × ℚ :=
  let val := v.get ValueType.VALUE UnitType.PERCENTAGE 1
  let exceededCritical : Bool :=
    if LESS then decide (val < v.criticalPercentage) else decide (v.criticalPercentage < val)
  if decide (0 < v.criticalPercentage) && exceededCritical then
    (Status.CRITICAL, v.criticalPercentage)
  else
    let exceededWarning : Bool :=
      if LESS then decide (val < v.warningPercentage) else decide (v.warningPercentage < val)
    if decide (0 < v.warningPercentage) && exceededWarning then
      (Status.WARNING, v.warningPercentage)
    else
      (Status.OK, 0)

/-- Number of decimal digits of `n` (0 for `n = 0`), with explicit fuel so the
recursion is structural; 128 units of fuel cover every magnitude reachable in
this development. -/
def digitsLen : Nat → Nat → Nat
  | 0, _ => 0
  | fuel + 1, n => if n = 0 then 0 else digitsLen fuel (n / 10) + 1

/-- Decimal representation of `n` left-padded with zeros to `d` digits. -/
def padZeros (d n : Nat) : String :=
  let r := Nat.repr n
  String.mk (List.replicate (d - r.length) '0') ++ r

/-- Renders the integer `n` with a decimal point placed `d` digits from the
right (no point when `d = 0`). -/
def insertPoint (n d : Nat) : String :=
  if d = 0 then Nat.repr n
  else Nat.repr (n / 10 ^ d) ++ "." ++ padZeros d (n % 10 ^ d)

/-- Removes trailing zeros after a decimal point, and a then-trailing point. -/
def stripZeros (s : String) : String :=
  if s.toList.contains '.' then
    match s.toList.reverse.dropWhile (fun c => c == '0') with
    | [] => ""
    | c :: rest => if c == '.' then String.mk rest.reverse else String.mk (c :: rest).reverse
  else s

/-- Models `ostream << double` under `std::fixed` with the default precision 6:
exactly six digits after the decimal point. -/
def formatFixed (q : ℚ) : String :=
  (if q < 0 then "-" else "") ++ insertPoint (round (|q| * 1000000)).toNat 6

/-- Models `ostream << double` in the default (`%.6g`-like) format for a
positive rational: six significant digits, fixed notation for decimal
exponents in `[-4, 5]` and scientific notation otherwise, trailing zeros
stripped.  The model assumes rounding to six significant digits does not
increase the decimal exponent (true of every value printed by this program). -/
def formatG6pos (q : ℚ) : String :=
  let e : Int := (digitsLen 128 (castULong (q * 10 ^ 30)) : Int) - 31
  if e < -4 ∨ 6 ≤ e then
    let scaled := (round (q * (10 : ℚ) ^ (5 - e))).toNat
    stripZeros (insertPoint scaled 5) ++ "e" ++ (if e < 0 then "-" else "+") ++ padZeros 2 e.natAbs
  else
    let d := (5 - e).toNat
    stripZeros (insertPoint (round (q * (10 : ℚ) ^ d)).toNat d)

/-- Models `ostream << double` with default flags and precision (as used for
the reason string): `0` prints as `"0"`, otherwise six significant digits. -/
def formatG6 (q : ℚ) : String :=
  if q = 0 then "0"
  else if q < 0 then "-" ++ formatG6pos (-q)
  else formatG6pos q

/-- `Value::getPerfData< U >( bytesPerUnit, unit )`. -/
def Value.getPerfData (v : Value) (U : UnitType) (bytesPerUnit : Nat) (unitIdx : Nat) : String :=
  formatFixed (v.get ValueType.VALUE U bytesPerUnit)
    ++ (if U = UnitType.PERCENTAGE then "%" else units.getD unitIdx "") ++ ";"
    ++ (if decide (0 < v.warningPercentage) && decide (0 < v.criticalPercentage) then
          formatFixed (v.get ValueType.WARNING U bytesPerUnit) ++ ";"
            ++ formatFixed (v.get ValueType.CRITICAL U bytesPerUnit) ++ ";"
        else "U;U;")
    ++ "0;"
    ++ formatFixed (v.get ValueType.MAX U bytesPerUnit)

/-- The reason string built by the free function `check< LESS >` when it
updates the running status: `"<percentage>% <comp> <exceededValue>%"`,
where `<exceededValue>` is what `Value::check` wrote into its out-parameter. -/
def categoryReason (LESS : Bool) (v : Value) : String :=
  formatG6 (v.get ValueType.VALUE UnitType.PERCENTAGE 1) ++ "%"
    ++ (if LESS then " < " else " > ")
    ++ formatG6 (v.check LESS).2 ++ "%"

/-- The free function `check< LESS >( const Value &v, status &s, std::string
&reason )`: the running status and reason are overwritten exactly when the
category's own status is strictly greater. -/
def check (LESS : Bool) (v : Value) (s : Status) (reason : String) : Status × String :=
  if s.toNat < (v.check LESS).1.toNat then ((v.check LESS).1, categoryReason LESS v)
  else (s, reason)

/-- A parsed TCLAP `ValueArg`: its (possibly defaulted) value and whether the
caller supplied it explicitly (`isSet`). -/
structure Arg where
  value : ℚ
  isSet : Bool

/-- The nine command-line arguments of `main`, after successful parsing. -/
structure Config where
  unitExp : Nat
  freeWarning : Arg
  freeCritical : Arg
  usedWarning : Arg
  usedCritical : Arg
  bufferWarning : Arg
  bufferCritical : Arg
  sharedWarning : Arg
  sharedCritical : Arg

/-- The fields of `struct sysinfo` read by the program.  Each counter is an
`unsigned long` (value below `2 ^ 64`). -/
structure Sysinfo where
  totalram : Nat
  freeram : Nat
  sharedram : Nat
  bufferram : Nat
  mem_unit : Nat

/-- `si.totalram - si.freeram - si.sharedram - si.bufferram` computed in
`unsigned long` arithmetic, i.e. modulo `2 ^ 64`. -/
def usedRaw (si : Sysinfo) : Nat :=
  (((si.totalram : Int) - si.freeram - si.sharedram - si.bufferram) % 2 ^ 64).toNat

/-- `const unsigned int bytesPerUnit = std::pow(1024, unit) / si.mem_unit;`
(a double computation truncated into an `unsigned int`). -/
def bytesPerUnitOf (cfg : Config) (si : Sysinfo) : Nat :=
  castULong ((1024 : ℚ) ^ cfg.unitExp / si.mem_unit) % 2 ^ 32

/-- The `if ( xArg.isSet() && yArg.isSet() ) v.setLimits( ... )` wiring of
`main`: limits are applied only when both flags were supplied. -/
def condSetLimits (w c : Arg) (v : Value) : Value :=
  if w.isSet && c.isSet then v.setLimits w.value c.value else v

/-- The four category `Value`s constructed by `main` (free, shared, buffer,
used), each with maximum `totalram` and with limits applied only when both of
the category's flags were set. -/
def buildValues (cfg : Config) (si : Sysinfo) : Value × Value × Value × Value :=
  let free := condSetLimits cfg.freeWarning cfg.freeCritical
    ((Value.ofRaw si.freeram).setMaximum si.totalram)
  let shared := condSetLimits cfg.sharedWarning cfg.sharedCritical
    ((Value.ofRaw si.sharedram).setMaximum si.totalram)
  let buffer := condSetLimits cfg.bufferWarning cfg.bufferCritical
    ((Value.ofRaw si.bufferram).setMaximum si.totalram)
  let used := condSetLimits cfg.usedWarning cfg.usedCritical
    ((Value.ofRaw (usedRaw si)).setMaximum si.totalram)
  (free, shared, buffer, used)

/-- The four `check` calls of `main` over given free/shared/buffer/used
values: `check< true >` on free then `check< false >` on shared, buffer and
used, threading the running status (initially `OK`) and reason
(initially `""`). -/
def runChecks4 (v1 v2 v3 v4 : Value) : Status × String :=
  let c1 := check true v1 Status.OK ""
  let c2 := check false v2 c1.1 c1.2
  let c3 := check false v3 c2.1 c2.2
  check false v4 c3.1 c3.2

/-- The evaluation pass of `main`, on the values built from the snapshot. -/
def runChecks (cfg : Config) (si : Sysinfo) : Status × String :=
  let vs := buildValues cfg si
  runChecks4 vs.1 vs.2.1 vs.2.2.1 vs.2.2.2

/-- A single-quote character, used to delimit metric names in the output. -/
def sq : String := String.mk [Char.ofNat 39]

/-- One `|'name'=<perfdata>` fragment of the output line. -/
def perfEntry (name : String) (v : Value) (U : UnitType) (bpu unitIdx : Nat) : String :=
  "|" ++ sq ++ name ++ sq ++ "=" ++ v.getPerfData U bpu unitIdx

/-- The single output line assembled by `main` on the success path. -/
def renderLine (cfg : Config) (si : Sysinfo) : String :=
  let vs := buildValues cfg si
  let sr := runChecks cfg si
  let bpu := bytesPerUnitOf cfg si
  status_name sr.1 ++ ": " ++ sr.2
    ++ perfEntry "used" vs.2.2.2 UnitType.HUMAN bpu cfg.unitExp
    ++ perfEntry "free" vs.1 UnitType.HUMAN bpu cfg.unitExp
    ++ perfEntry "shared" vs.2.1 UnitType.HUMAN bpu cfg.unitExp
    ++ perfEntry "buffer" vs.2.2.1 UnitType.HUMAN bpu cfg.unitExp
    ++ perfEntry "used" vs.2.2.2 UnitType.PERCENTAGE bpu cfg.unitExp
    ++ perfEntry "free" vs.1 UnitType.PERCENTAGE bpu cfg.unitExp
    ++ perfEntry "shared" vs.2.1 UnitType.PERCENTAGE bpu cfg.unitExp
    ++ perfEntry "buffer" vs.2.2.1 UnitType.PERCENTAGE bpu cfg.unitExp

/-- A `TCLAP::ArgException`: the message and the identifier of the offending
argument. -/
structure ArgError where
  error : String
  argId : String

/-- `main`, over its two external collaborators: the parse result and the
`sysinfo` result.  Returns the process exit code and the single line written
to standard output. -/
def mainRun (args : Except ArgError Config) (si : Option Sysinfo) : Nat × String :=
  match args with
  | Except.error e =>
      (Status.toNat Status.UNKNOWN, "error: " ++ e.error ++ " for arg " ++ e.argId)
  | Except.ok cfg =>
      match si with
      | none => (Status.toNat Status.UNKNOWN, "UNKNOWN: Could not gather sysinfo() stats")
      | some si => ((runChecks cfg si).1.toNat, renderLine cfg si)

/-- The performance field as the specification describes it, for comparison
with `Value.getPerfData`: `value<unit>;warn;crit;0;max`, where the warn/crit
positions are the literal `U;U` when EITHER threshold is disabled (a
threshold `≤ 0` being the disabled state), and the minimum field is the
literal `0`. -/
def specPerfData (v : Value) (U : UnitType) (bytesPerUnit : Nat) (unitIdx : Nat) : String :=
  formatFixed (v.get ValueType.VALUE U bytesPerUnit)
    ++ (if U = UnitType.PERCENTAGE then "%" else units.getD unitIdx "") ++ ";"
    ++ (if v.warningPercentage ≤ 0 ∨ v.criticalPercentage ≤ 0 then "U;U;"
        else formatFixed (v.get ValueType.WARNING U bytesPerUnit) ++ ";"
          ++ formatFixed (v.get ValueType.CRITICAL U bytesPerUnit) ++ ";")
    ++ "0;"
    ++ formatFixed (v.get ValueType.MAX U bytesPerUnit)

/-- A configuration in which no flag was explicitly set (all TCLAP defaults). -/
def cfgDefault : Config :=
  ⟨2, ⟨10, false⟩, ⟨5, false⟩, ⟨90, false⟩, ⟨95, false⟩,
    ⟨90, false⟩, ⟨95, false⟩, ⟨90, false⟩, ⟨95, false⟩⟩

/-- Configuration with the free and used threshold pairs explicitly set to
their default values, shared and buffer left unset. -/
def cfgC6 : Config :=
  ⟨2, ⟨10, true⟩, ⟨5, true⟩, ⟨90, true⟩, ⟨95, true⟩,
    ⟨90, false⟩, ⟨95, false⟩, ⟨90, false⟩, ⟨95, false⟩⟩

/-- The snapshot total=1000, free=50, shared=0, buffer=0. -/
def siC6 : Sysinfo := ⟨1000, 50, 0, 0, 1⟩

/-- Configuration with only the free threshold pair explicitly set (to the
default 10/5), everything else unset. -/
def cfgC7 : Config :=
  ⟨2, ⟨10, true⟩, ⟨5, true⟩, ⟨90, false⟩, ⟨95, false⟩,
    ⟨90, false⟩, ⟨95, false⟩, ⟨90, false⟩, ⟨95, false⟩⟩

/-- A snapshot with zero free memory. -/
def siC7 : Sysinfo := ⟨1000, 0, 0, 0, 1⟩

/-- A snapshot whose counters exceed the total moderately:
free + shared + buffer = 30000 > 20000 = total.  The total is large enough
(`≥ 10000`) that the percentage computation's truncating cast stays within
`unsigned long` range on the wrapped used value. -/
def siWrap : Sysinfo := ⟨20000, 15000, 15000, 0, 1⟩

/-- A snapshot with free + shared + buffer = total + 2 ^ 64 > total, for which
the wrapping subtraction yields exactly 0. -/
def siWrapZero : Sysinfo := ⟨2, 2 ^ 63, 2 ^ 63, 2, 1⟩

section Claims

attribute [local semireducible] Rat.mul Rat.add Rat.inv Rat.sub

/-- `Value::check` only produces OK, WARNING or CRITICAL. -/
theorem Value.check_fst_toNat_le (v : Value) (LESS : Bool) :
    ((v.check LESS).1).toNat ≤ 2 := by
  simp only [Value.check]
  repeat' split
  all_goals simp [Status.toNat]

/-- The free `check` keeps the running status in the OK..CRITICAL range. -/
theorem checkStep_fst_toNat_le (LESS : Bool) (v : Value) (s : Status) (r : String)
    (h : s.toNat ≤ 2) : ((check LESS v s r).1).toNat ≤ 2 := by
  unfold check
  split
  · exact Value.check_fst_toNat_le v LESS
  · exact h

/-- `condSetLimits` never changes the measured value. -/
theorem condSetLimits_value (w c : Arg) (v : Value) :
    (condSetLimits w c v).value = v.value := by
  unfold condSetLimits Value.setLimits
  split <;> rfl

/-- `condSetLimits` never changes the maximum. -/
theorem condSetLimits_max (w c : Arg) (v : Value) :
    (condSetLimits w c v).max = v.max := by
  unfold condSetLimits Value.setLimits
  split <;> rfl

/-- On nonnegative operands the truncating cast agrees with the floor. -/
theorem castULong_cast (q : ℚ) (h : 0 ≤ q) :
    ((castULong q : ℕ) : ℚ) = ((⌊q⌋ : ℤ) : ℚ) := by
  unfold castULong
  exact_mod_cast congrArg (fun z : ℤ => (z : ℚ))
    (Int.toNat_of_nonneg (Int.floor_nonneg.mpr h))

/-- The percentage form of the measured value, written out. -/
theorem get_pct_eq (v : Value) :
    v.get ValueType.VALUE UnitType.PERCENTAGE 1
      = (castULong (10000 * (v.value : ℚ) / v.max) : ℚ) / 100 := rfl

/-- If the value is at least twice the (positive) maximum, the truncated
percentage exceeds 100. -/
theorem pct_gt_100_of (u t : Nat) (h0 : 0 < t) (h : 2 * t ≤ u) :
    100 < (castULong (10000 * (u : ℚ) / t) : ℚ) / 100 := by
  have ht : (0 : ℚ) < t := by exact_mod_cast h0
  have hc : (2 * t : ℚ) ≤ (u : ℚ) := by exact_mod_cast h
  have hq : (20000 : ℚ) ≤ 10000 * (u : ℚ) / t := by
    rw [le_div_iff₀ ht]
    nlinarith
  have hfl : (10001 : ℤ) ≤ ⌊10000 * (u : ℚ) / t⌋ := by
    apply Int.le_floor.mpr
    push_cast
    linarith
  have h1 : (10001 : ℕ) ≤ castULong (10000 * (u : ℚ) / t) := by
    unfold castULong
    omega
  have h2 : (10001 : ℚ) ≤ (castULong (10000 * (u : ℚ) / t) : ℚ) := by exact_mod_cast h1
  nlinarith

/-- C2: for every category value with both thresholds enabled (`> 0`), if the
percentage value satisfies the exceed-condition (under the category's
comparison direction) against both the warning and the critical threshold,
`Value::check` returns CRITICAL and reports the critical threshold as the
exceeded value — never WARNING. -/
theorem C2_critical_precedence (v : Value) (LESS : Bool)
    (hw : 0 < v.warningPercentage) (hc : 0 < v.criticalPercentage)
    (hxw : (if LESS then decide (v.get ValueType.VALUE UnitType.PERCENTAGE 1 < v.warningPercentage)
            else decide (v.warningPercentage < v.get ValueType.VALUE UnitType.PERCENTAGE 1)) = true)
    (hxc : (if LESS then decide (v.get ValueType.VALUE UnitType.PERCENTAGE 1 < v.criticalPercentage)
            else decide (v.criticalPercentage < v.get ValueType.VALUE UnitType.PERCENTAGE 1)) = true) :
    v.check LESS = (Status.CRITICAL, v.criticalPercentage) := by
  simp only [Value.check]
  rw [if_pos]
  rw [Bool.and_eq_true]
  exact ⟨decide_eq_true hc, hxc⟩

/-- Witness for C2 at value 1% of maximum with below-policy thresholds 10/5. -/
theorem C2_critical_precedence_witness :
    Value.check ⟨1, 100, 10, 5⟩ true = (Status.CRITICAL, 5) :=
  C2_critical_precedence ⟨1, 100, 10, 5⟩ true (by norm_num) (by norm_num)
    (by decide) (by decide)

/-- C3: a category's thresholds take effect only when BOTH its warning and
critical flags were supplied; otherwise the constructed `Value` keeps its
disabled sentinels (`-1`) and its evaluation returns OK. -/
theorem C3_both_flags_required (raw m : Nat) (w c : Arg) (LESS : Bool)
    (h : (w.isSet && c.isSet) = false) :
    condSetLimits w c ((Value.ofRaw raw).setMaximum m) = (Value.ofRaw raw).setMaximum m ∧
    (condSetLimits w c ((Value.ofRaw raw).setMaximum m)).warningPercentage = -1 ∧
    (condSetLimits w c ((Value.ofRaw raw).setMaximum m)).criticalPercentage = -1 ∧
    (condSetLimits w c ((Value.ofRaw raw).setMaximum m)).check LESS = (Status.OK, 0) := by
  have h1 : condSetLimits w c ((Value.ofRaw raw).setMaximum m)
      = (Value.ofRaw raw).setMaximum m := by
    unfold condSetLimits
    rw [h]
    rfl
  refine ⟨h1, by rw [h1]; rfl, by rw [h1]; rfl, ?_⟩
  rw [h1]
  norm_num [Value.check, Value.ofRaw, Value.setMaximum]

/-- Witness for C3: only the warning flag set. -/
theorem C3_both_flags_required_witness :
    condSetLimits ⟨10, true⟩ ⟨5, false⟩ ((Value.ofRaw 100).setMaximum 1000)
        = (Value.ofRaw 100).setMaximum 1000 ∧
    (condSetLimits ⟨10, true⟩ ⟨5, false⟩ ((Value.ofRaw 100).setMaximum 1000)).warningPercentage = -1 ∧
    (condSetLimits ⟨10, true⟩ ⟨5, false⟩ ((Value.ofRaw 100).setMaximum 1000)).criticalPercentage = -1 ∧
    (condSetLimits ⟨10, true⟩ ⟨5, false⟩ ((Value.ofRaw 100).setMaximum 1000)).check true
        = (Status.OK, 0) :=
  C3_both_flags_required 100 1000 ⟨10, true⟩ ⟨5, false⟩ true (by decide)

/-- C4: the percentage conversion is two-decimal truncation
`⌊10000 * value / maximum⌋ / 100` (not rounding), the human-unit conversion is
three-decimal truncation `⌊1000 * value / bytesPerUnit⌋ / 1000`, and a raw
input whose mathematical percentage is 34.0049 yields the percentage value 34
(rendered `34.00`), not 34.01. -/
theorem C4_truncating_conversions (v : Value) (bpu : Nat) :
    v.get ValueType.VALUE UnitType.PERCENTAGE 1
        = (⌊10000 * (v.value : ℚ) / (v.max : ℚ)⌋ : ℚ) / 100 ∧
    v.get ValueType.VALUE UnitType.HUMAN bpu
        = (⌊1000 * (v.value : ℚ) / (bpu : ℚ)⌋ : ℚ) / 1000 ∧
    100 * (340049 : ℚ) / 1000000 = 34 + 49 / 10000 ∧
    ((Value.ofRaw 340049).setMaximum 1000000).get ValueType.VALUE UnitType.PERCENTAGE 1 = 34 := by
  refine ⟨?_, ?_, by norm_num, by decide⟩
  · simp only [Value.get, Value.getRaw]
    rw [castULong_cast _ (by positivity)]
  · simp only [Value.get, Value.getRaw]
    rw [castULong_cast _ (by positivity)]

/-- C6: for total=1000, free=50 the derived used value is 950, used% is
exactly 95, which under the strict `>` above-policy does not exceed the
default critical threshold 95 but does exceed the default warning threshold
90, so the used category evaluates to WARNING; free% is 5, which does not
satisfy `5 < 5` against the free critical threshold, and the overall severity
of the run is WARNING. -/
theorem C6_default_used_scenario :
    usedRaw siC6 = 950 ∧
    ((Value.ofRaw 950).setMaximum 1000).get ValueType.VALUE UnitType.PERCENTAGE 1 = 95 ∧
    decide ((95 : ℚ) < 95) = false ∧
    (((Value.ofRaw 950).setMaximum 1000).setLimits 90 95).check false = (Status.WARNING, 90) ∧
    ((Value.ofRaw 50).setMaximum 1000).get ValueType.VALUE UnitType.PERCENTAGE 1 = 5 ∧
    decide ((5 : ℚ) < 5) = false ∧
    (runChecks cfgC6 siC6).1 = Status.WARNING := by
  decide

/-- C7 counterexample: with free = 0% and the free pair set to 10/5, the
evaluation is CRITICAL but the reason string the program builds is
`"0% < 5%"` — the default ostream formatting of the double `0.0` prints `0`,
not the `0.00` the claim states. -/
theorem C7_reason_string_counterexample :
    runChecks cfgC7 siC7 = (Status.CRITICAL, "0% < 5%") ∧
    (("0% < 5%" : String) == "0.00% < 5%") = false := by
  constructor
  · decide
  · decide

/-- C7 (amended): with free = 0% of total and both free flags set with
free-critical = 5, the run is CRITICAL with reason exactly `"0% < 5%"`
(`0 < 5` under the below-policy; the percentage 0 prints as `0`). -/
theorem C7_free_zero_critical :
    runChecks cfgC7 siC7 = (Status.CRITICAL, "0% < 5%") ∧
    ((Value.ofRaw 0).setMaximum 1000).get ValueType.VALUE UnitType.PERCENTAGE 1 = 0 ∧
    (((Value.ofRaw 0).setMaximum 1000).setLimits 10 5).check true = (Status.CRITICAL, 5) := by
  decide

/-- C8: the rendered performance field agrees, for every category value, unit
representation and unit parameters, with the specification's description
`value<unit>;warn;crit;0;max` in which the warn/crit positions are the
literal `U;U` exactly when either threshold is disabled (`≤ 0`). -/
theorem C8_perf_field_shape (v : Value) (U : UnitType) (bpu unitIdx : Nat) :
    v.getPerfData U bpu unitIdx = specPerfData v U bpu unitIdx := by
  unfold Value.getPerfData specPerfData
  rcases le_or_lt v.warningPercentage 0 with hw | hw
  · rw [if_pos (Or.inl hw)]
    have : decide (0 < v.warningPercentage) = false := by
      simpa using not_lt.mpr hw
    rw [this]
    simp
  · rcases le_or_lt v.criticalPercentage 0 with hc | hc
    · rw [if_pos (Or.inr hc)]
      have : decide (0 < v.criticalPercentage) = false := by
        simpa using not_lt.mpr hc
      rw [this]
      simp
    · have hnc : ¬(v.warningPercentage ≤ 0 ∨ v.criticalPercentage ≤ 0) := by
        push_neg
        exact ⟨hw, hc⟩
      rw [if_neg hnc, decide_eq_true hw, decide_eq_true hc]
      simp

/-- C5: the used quantity that `main` feeds into evaluation and reporting is
`totalram - freeram - sharedram - bufferram` (in `unsigned long` arithmetic),
never an independently sampled counter; whenever the subtraction does not
underflow it equals the exact difference. -/
theorem C5_used_is_derived (cfg : Config) (si : Sysinfo)
    (h1 : si.freeram + si.sharedram + si.bufferram ≤ si.totalram)
    (h2 : si.totalram < 2 ^ 64) :
    (buildValues cfg si).2.2.2.value = usedRaw si ∧
    (usedRaw si : ℤ) = (si.totalram : ℤ) - si.freeram - si.sharedram - si.bufferram := by
  constructor
  · simp [buildValues, condSetLimits_value, Value.setMaximum, Value.ofRaw]
  · unfold usedRaw
    rw [show ((2 : ℤ) ^ 64) = 18446744073709551616 from by norm_num]
    omega

/-- Witness for C5 at the total=1000, free=50 snapshot. -/
theorem C5_used_is_derived_witness :
    (buildValues cfgDefault siC6).2.2.2.value = usedRaw siC6 ∧
    (usedRaw siC6 : ℤ) = (siC6.totalram : ℤ) - siC6.freeram - siC6.sharedram - siC6.bufferram :=
  C5_used_is_derived cfgDefault siC6 (by decide) (by decide)

/-- C9: the exit code is the numeric severity (OK=0, WARNING=1, CRITICAL=2);
it is 3 (UNKNOWN) exactly in the two failure cases — argument parse failure,
which prints a one-line diagnostic naming the offending argument, and sysinfo
failure, which prints a fixed diagnostic — and in both failure cases the
printed line is that diagnostic alone, not the report line; on the success
path threshold evaluation never produces a code above 2. -/
theorem C9_exit_codes :
    Status.toNat Status.OK = 0 ∧ Status.toNat Status.WARNING = 1 ∧
    Status.toNat Status.CRITICAL = 2 ∧ Status.toNat Status.UNKNOWN = 3 ∧
    (∀ (e : ArgError) (si : Option Sysinfo),
      mainRun (Except.error e) si = (3, "error: " ++ e.error ++ " for arg " ++ e.argId)) ∧
    (∀ cfg : Config,
      mainRun (Except.ok cfg) none = (3, "UNKNOWN: Could not gather sysinfo() stats")) ∧
    (∀ (cfg : Config) (si : Sysinfo),
      mainRun (Except.ok cfg) (some si) = ((runChecks cfg si).1.toNat, renderLine cfg si)) ∧
    (∀ (cfg : Config) (si : Sysinfo), (runChecks cfg si).1.toNat ≤ 2) := by
  refine ⟨rfl, rfl, rfl, rfl, fun e si => rfl, fun cfg => rfl, fun cfg si => rfl,
    fun cfg si => ?_⟩
  unfold runChecks runChecks4
  apply checkStep_fst_toNat_le
  apply checkStep_fst_toNat_le
  apply checkStep_fst_toNat_le
  apply checkStep_fst_toNat_le
  simp [Status.toNat]

/-- C10 counterexample: a snapshot with `free + shared + buffer > total` for
which the wrapped used value is 0, not an enormous value, and the used
percentage is 0, not above 100 (the difference is exactly `2 ^ 64`). -/
theorem C10_wraparound_counterexample :
    siWrapZero.totalram < siWrapZero.freeram + siWrapZero.sharedram + siWrapZero.bufferram ∧
    usedRaw siWrapZero = 0 ∧
    (buildValues cfgDefault siWrapZero).2.2.2.get ValueType.VALUE UnitType.PERCENTAGE 1 = 0 ∧
    (buildValues cfgDefault siWrapZero).2.2.2.get ValueType.VALUE UnitType.PERCENTAGE 1 ≤ 100 := by
  refine ⟨by decide, by decide, by decide, by decide⟩

/-- C10 (amended): the used value is computed with unsigned wraparound modulo
`2 ^ 64` rather than an error, a clamp to zero, or UNKNOWN; whenever each
counter is at most the total and `10000 ≤ total ≤ 2 ^ 62` while their sum
exceeds the total, the wrapped value is `2 ^ 64` minus the deficit — at least
`2 ^ 63`, hence enormous — the operand `10000 * value / max` of the
percentage's truncating cast stays below `2 ^ 64` (within `unsigned long`
range, so the cast is well defined), and the percentage exceeds 100.
The lower bound on the total is what keeps the cast in range: for smaller
totals the cast operand can exceed `ULONG_MAX`, where the C++ conversion is
undefined behaviour and this model makes no statement. -/
theorem C10_wraparound (cfg : Config) (si : Sysinfo)
    (hf : si.freeram ≤ si.totalram) (hs : si.sharedram ≤ si.totalram)
    (hb : si.bufferram ≤ si.totalram)
    (hlt : si.totalram < si.freeram + si.sharedram + si.bufferram)
    (ht : 10000 ≤ si.totalram) (ht2 : si.totalram ≤ 2 ^ 62) :
    usedRaw si = 2 ^ 64 - (si.freeram + si.sharedram + si.bufferram - si.totalram) ∧
    2 ^ 63 ≤ usedRaw si ∧
    10000 * ((buildValues cfg si).2.2.2.value : ℚ)
        / ((buildValues cfg si).2.2.2.max : ℚ) < 2 ^ 64 ∧
    100 < (buildValues cfg si).2.2.2.get ValueType.VALUE UnitType.PERCENTAGE 1 := by
  have ha : usedRaw si
      = 2 ^ 64 - (si.freeram + si.sharedram + si.bufferram - si.totalram) := by
    unfold usedRaw
    rw [show ((2 : ℤ) ^ 64) = 18446744073709551616 from by norm_num]
    omega
  have hval : (buildValues cfg si).2.2.2.value = usedRaw si := by
    simp [buildValues, condSetLimits_value, Value.setMaximum, Value.ofRaw]
  have hmax : (buildValues cfg si).2.2.2.max = si.totalram := by
    simp [buildValues, condSetLimits_max, Value.setMaximum, Value.ofRaw]
  have hu : usedRaw si < 2 ^ 64 := by omega
  have ht0 : (0 : ℚ) < (si.totalram : ℚ) := by
    have h : 0 < si.totalram := by omega
    exact_mod_cast h
  refine ⟨ha, by omega, ?_, ?_⟩
  · rw [hval, hmax, div_lt_iff₀ ht0]
    have hu' : (usedRaw si : ℚ) < 2 ^ 64 := by exact_mod_cast hu
    have ht' : (10000 : ℚ) ≤ (si.totalram : ℚ) := by exact_mod_cast ht
    linarith
  · rw [get_pct_eq, hval, hmax]
    exact pct_gt_100_of (usedRaw si) si.totalram (by omega) (by omega)

/-- Witness for C10 at total=20000, free=15000, shared=15000. -/
theorem C10_wraparound_witness :
    usedRaw siWrap = 2 ^ 64 - (siWrap.freeram + siWrap.sharedram + siWrap.bufferram - siWrap.totalram) ∧
    2 ^ 63 ≤ usedRaw siWrap ∧
    10000 * ((buildValues cfgDefault siWrap).2.2.2.value : ℚ)
        / ((buildValues cfgDefault siWrap).2.2.2.max : ℚ) < 2 ^ 64 ∧
    100 < (buildValues cfgDefault siWrap).2.2.2.get ValueType.VALUE UnitType.PERCENTAGE 1 :=
  C10_wraparound cfgDefault siWrap (by decide) (by decide) (by decide)
    (by decide) (by decide) (by decide)

/-- The four-step check chain computes the maximum severity, and its final
reason is the reason written by the earliest category attaining that
maximum. -/
theorem runChecks4_spec (v1 v2 v3 v4 : Value) :
    (runChecks4 v1 v2 v3 v4).1.toNat =
      max (max (max (v1.check true).1.toNat (v2.check false).1.toNat)
          (v3.check false).1.toNat)
        (v4.check false).1.toNat ∧
    (runChecks4 v1 v2 v3 v4).2 =
      (if (v1.check true).1 = (runChecks4 v1 v2 v3 v4).1 then
        (check true v1 Status.OK "").2
      else if (v2.check false).1 = (runChecks4 v1 v2 v3 v4).1 then
        (check false v2 Status.OK "").2
      else if (v3.check false).1 = (runChecks4 v1 v2 v3 v4).1 then
        (check false v3 Status.OK "").2
      else (check false v4 Status.OK "").2) := by
  simp only [runChecks4, check]
  generalize categoryReason true v1 = r1
  generalize categoryReason false v2 = r2
  generalize categoryReason false v3 = r3
  generalize categoryReason false v4 = r4
  generalize Value.check v1 true = a1
  generalize Value.check v2 false = a2
  generalize Value.check v3 false = a3
  generalize Value.check v4 false = a4
  obtain ⟨s1, e1⟩ := a1
  obtain ⟨s2, e2⟩ := a2
  obtain ⟨s3, e3⟩ := a3
  obtain ⟨s4, e4⟩ := a4
  cases s1 <;> cases s2 <;> cases s3 <;> cases s4 <;>
    simp [Status.toNat, Nat.max_def]

/-- C1: the overall severity is the maximum of the four categories'
individually computed severities (in the ordering OK < WARNING < CRITICAL),
and the reported explanation is the one written by the earliest-evaluated
category (order free, shared, buffer, used) whose severity attains that
maximum — a later category overwrites the explanation only when its severity
is strictly greater. -/
theorem C1_overall_max_and_earliest_reason (cfg : Config) (si : Sysinfo) :
    (runChecks cfg si).1.toNat =
      max (max (max ((buildValues cfg si).1.check true).1.toNat
            ((buildValues cfg si).2.1.check false).1.toNat)
          ((buildValues cfg si).2.2.1.check false).1.toNat)
        ((buildValues cfg si).2.2.2.check false).1.toNat ∧
    (runChecks cfg si).2 =
      (if ((buildValues cfg si).1.check true).1 = (runChecks cfg si).1 then
        (check true (buildValues cfg si).1 Status.OK "").2
      else if ((buildValues cfg si).2.1.check false).1 = (runChecks cfg si).1 then
        (check false (buildValues cfg si).2.1 Status.OK "").2
      else if ((buildValues cfg si).2.2.1.check false).1 = (runChecks cfg si).1 then
        (check false (buildValues cfg si).2.2.1 Status.OK "").2
      else (check false (buildValues cfg si).2.2.2 Status.OK "").2) :=
  runChecks4_spec (buildValues cfg si).1 (buildValues cfg si).2.1
    (buildValues cfg si).2.2.1 (buildValues cfg si).2.2.2

end Claims

end CheckMem
